import Mathlib

/-!
Shallow embedding of `websocket-receive-audio/websocket_test_receiver.py`
(class `WebSocketTestReceiver`): token validation, the per-connection
receive loop of `handle_client`, and `save_audio`.

Bytes are modelled as `Nat` (< 256), byte strings as `List Nat`.
-/

namespace WSReceiver

/-- `OUTPUT_WAV_FILE = "received_audio.wav"` (module-level constant). -/
def OUTPUT_WAV_FILE : String := "received_audio.wav"

/-- `EXPECTED_SESSION_TOKEN = "test_session_token_12345"` (class attribute). -/
def EXPECTED_SESSION_TOKEN : String := "test_session_token_12345"

/-! ### base64 decoding (model of Python `base64.b64decode`)

`base64.b64decode(s)` (default `validate=False`) discards characters outside
the base64 alphabet, then requires the remaining length to be a multiple of 4
(raising `binascii.Error` otherwise), decodes 4-character groups to 3 bytes,
with `=` padding ending the data (a final group of 2 or 3 data characters
yields 1 or 2 bytes). Failure is modelled as `none`. -/

/-- Index of a character in the standard base64 alphabet, `none` if absent. -/
def b64Index (c : Char) : Option Nat :=
  if 'A' ≤ c ∧ c ≤ 'Z' then some (c.toNat - 65)
  else if 'a' ≤ c ∧ c ≤ 'z' then some (c.toNat - 97 + 26)
  else if '0' ≤ c ∧ c ≤ '9' then some (c.toNat - 48 + 52)
  else if c = '+' then some 62
  else if c = '/' then some 63
  else none

/-- Pack a list of 6-bit groups into 8-bit bytes; a trailing single sextet
cannot form a byte, so it is a padding error (`none`). -/
def sextetsToBytes : List Nat → Option (List Nat)
  | [] => some []
  | [_] => none
  | [a, b] => some [(a * 4 + b / 16) % 256]
  | [a, b, c] => some [(a * 4 + b / 16) % 256, (b % 16 * 16 + c / 4) % 256]
  | a :: b :: c :: d :: rest =>
    (sextetsToBytes rest).map (fun tail =>
      (a * 4 + b / 16) % 256 :: (b % 16 * 16 + c / 4) % 256 ::
        (c % 4 * 64 + d) % 256 :: tail)

/-- Model of `base64.b64decode`: `none` models a raised `binascii.Error`. -/
def b64decode (s : String) : Option (List Nat) :=
  let cs := s.data.filter (fun c => (b64Index c).isSome ∨ c = '=')
  if cs.length % 4 ≠ 0 then none
  else sextetsToBytes ((cs.takeWhile (fun c => c ≠ '=')).map
    (fun c => (b64Index c).getD 0))

/-! ### Inbound frames -/

/-- The fields of a decoded JSON frame that `handle_client` reads via
`data.get(...)`. `none` models an absent key. (`"avatar_id" in data` is
modelled as `avatar_id.isSome`.) -/
structure Frame where
  command : Option String := none
  session_id : Option String := none
  avatar_id : Option String := none
  audio : Option String := none
  sampleRate : Option Nat := none
  event_id : Option String := none
  timestamp : Option Int := none
  deriving Repr, DecidableEq

/-- Python truthiness of `data.get("command")`: `None` and `""` are falsy. -/
def pyTruthy : Option String → Bool
  | none => false
  | some s => s ≠ ""

/-- One received websocket message: either unparseable JSON
(`json.JSONDecodeError` branch) or a decoded frame. -/
inductive Msg where
  | malformed : Msg
  | frame : Frame → Msg
  deriving Repr, DecidableEq

/-- The heartbeat acknowledgment frame sent back to the client. -/
structure HeartbeatAck where
  command : String
  event_id : String
  timestamp : Int
  deriving Repr, DecidableEq

/-! ### Per-connection session state

The local variables of `handle_client` (`chunk_count`, `audio_data_buffer`,
`session_initialized`, `current_sample_rate`), plus the list of outbound
frames sent with `websocket.send`. -/

structure SessionState where
  chunk_count : Nat
  audio_data_buffer : List (List Nat)
  session_initialized : Bool
  current_sample_rate : Nat
  sent : List HeartbeatAck
  deriving Repr, DecidableEq

/-- The state at the top of `handle_client`, after token validation:
`chunk_count = 0`, `audio_data_buffer = []`, `session_initialized = False`,
`current_sample_rate = 24000`. -/
def initState : SessionState :=
  { chunk_count := 0
    audio_data_buffer := []
    session_initialized := false
    current_sample_rate := 24000
    sent := [] }

/-- The `elif` dispatch chain on `data.get("command")` inside the receive
loop, for one decoded frame. A `base64` decode failure inside the `voice`
branch is caught by the surrounding `except Exception` after `chunk_count`,
`current_sample_rate` were already updated, leaving the buffer untouched. -/
def processFrame (st : SessionState) (f : Frame) : SessionState :=
  let command := f.command
  if command = some "init" then
    { st with session_initialized := true }
  else if command = some "voice" then
    if !st.session_initialized then st
    else
      let st := { st with
        chunk_count := st.chunk_count + 1
        current_sample_rate := f.sampleRate.getD 24000 }
      let audio_base64 := f.audio.getD ""
      if audio_base64 = "" then st
      else
        match b64decode audio_base64 with
        | some audio_bytes =>
          { st with audio_data_buffer := st.audio_data_buffer ++ [audio_bytes] }
        | none => st
  else if command = some "voice_end" then st
  else if command = some "voice_interrupt" then
    if st.audio_data_buffer ≠ [] then { st with audio_data_buffer := [] } else st
  else if command = some "heartbeat" then
    { st with sent := st.sent ++
      [{ command := "heartbeat_ack"
         event_id := f.event_id.getD "unknown"
         timestamp := f.timestamp.getD 0 }] }
  else if command = some "special" then st
  else if f.avatar_id.isSome ∧ ¬ pyTruthy command then
    { st with session_initialized := true }
  else st

/-- One iteration of the receive loop: a malformed message only hits the
`except json.JSONDecodeError` logger and changes nothing. -/
def processMsg (st : SessionState) (m : Msg) : SessionState :=
  match m with
  | .malformed => st
  | .frame f => processFrame st f

/-- The receive loop over a finite message sequence. -/
def runMsgs (msgs : List Msg) : SessionState :=
  msgs.foldl processMsg initState

/-! ### Artifact and finalization -/

/-- The WAV file written by `save_audio`: `wave.open(OUTPUT_WAV_FILE, 'wb')`,
`setnchannels(1)`, `setsampwidth(2)`, `setframerate(sample_rate)`,
`writeframes(b''.join(audio_chunks))`. -/
structure WavFile where
  filename : String
  nchannels : Nat
  sampwidth : Nat
  framerate : Nat
  frames : List Nat
  deriving Repr, DecidableEq

/-- `save_audio(audio_chunks, sample_rate)`. -/
def save_audio (audio_chunks : List (List Nat)) (sample_rate : Nat) : WavFile :=
  { filename := OUTPUT_WAV_FILE
    nchannels := 1
    sampwidth := 2
    framerate := sample_rate
    frames := audio_chunks.flatten }

/-- How the receive loop of `handle_client` ends: the `async for` finishes
normally (clean close), raises `websockets.exceptions.ConnectionClosed`
(abrupt disconnect), or some other exception escapes. -/
inductive ExitCause where
  | normalClose : ExitCause
  | connectionClosed : ExitCause
  | error : ExitCause
  deriving Repr, DecidableEq

/-- The post-loop code of `handle_client`: `save_audio` runs only when the
`async for` loop finishes normally (the call sits after the loop inside the
`try`; the `except` branches skip it) and only if the buffer is non-empty. -/
def finalizeSession (st : SessionState) (exitCause : ExitCause) : Option WavFile :=
  match exitCause with
  | .normalClose =>
    if st.audio_data_buffer ≠ [] then
      some (save_audio st.audio_data_buffer st.current_sample_rate)
    else none
  | .connectionClosed => none
  | .error => none

/-! ### Authentication and the whole handler -/

/-- The request headers as seen by `__validate_session_token`: `none` models a
websocket object with neither `request_headers` nor `request`. -/
structure Headers where
  authorization : Option String := none
  deriving Repr, DecidableEq

/-- `__validate_session_token`: with no headers object the function falls off
the end returning `None` (falsy); otherwise
`auth_header = headers.get("authorization", "")` is compared with
`f"Bearer {EXPECTED_SESSION_TOKEN}"`; both the empty/absent and the
mismatching header return `False`. The function catches all exceptions, so it
is total. -/
def _validate_session_token (headers : Option Headers) : Bool :=
  match headers with
  | none => false
  | some hs =>
    let auth_header := hs.authorization.getD ""
    auth_header = "Bearer " ++ EXPECTED_SESSION_TOKEN

/-- The observable outcome of `handle_client` for one connection. -/
structure ClientResult where
  closeCode : Option Nat
  finalState : SessionState
  artifact : Option WavFile
  deriving Repr, DecidableEq

/-- `handle_client`: validate the token (on failure close with code 1008 and
return before any message is processed), otherwise run the receive loop over
the delivered messages and finalize according to how the loop exited. -/
def handle_client (headers : Option Headers) (msgs : List Msg)
    (exitCause : ExitCause) : ClientResult :=
  if !_validate_session_token headers then
    { closeCode := some 1008, finalState := initState, artifact := none }
  else
    let st := runMsgs msgs
    { closeCode := none, finalState := st, artifact := finalizeSession st exitCause }

/-- Headers carrying the expected bearer token. -/
def goodHeaders : Option Headers :=
  some { authorization := some ("Bearer " ++ EXPECTED_SESSION_TOKEN) }

/-- The decoded bytes of a frame's `audio` field (empty list on failure);
used to phrase theorems about buffered audio. -/
def decodedAudio (f : Frame) : List Nat :=
  (b64decode (f.audio.getD "")).getD []

/-! ### Concrete instances used in witnesses and counterexamples -/

/-- A plain `init` frame. -/
def initFrame : Frame := { command := some "init" }

/-- A `voice` frame with valid base64 `"TWFu"` (decoding to `[77, 97, 110]`)
at 48000 Hz. -/
def voiceTWFu : Frame :=
  { command := some "voice", audio := some "TWFu", sampleRate := some 48000 }

/-- A `voice` frame with valid base64 `"TQ=="` at 24000 Hz. -/
def voiceTQ : Frame :=
  { command := some "voice", audio := some "TQ==", sampleRate := some 24000 }

/-- A `voice` frame with valid base64 `"TWE="` at 48000 Hz. -/
def voiceTWE : Frame :=
  { command := some "voice", audio := some "TWE=", sampleRate := some 48000 }

/-- A `voice` frame whose `audio` is invalid base64 (`"abc"` has length 3
after filtering, not a multiple of 4, so `b64decode` fails). -/
def voiceBad : Frame := { command := some "voice", audio := some "abc" }

/-- A legacy frame: no `command`, but an `avatar_id`. -/
def legacyFrame : Frame := { avatar_id := some "avatar_1" }

/-- A heartbeat frame with `event_id = "h1"` and `timestamp = 42`. -/
def heartbeatFrame : Frame :=
  { command := some "heartbeat", event_id := some "h1", timestamp := some 42 }

/-- Headers carrying a wrong bearer token. -/
def badHeaders : Option Headers := some { authorization := some "Bearer wrong_token" }

/-- An initialized session state with empty buffer. -/
def stReady : SessionState := { initState with session_initialized := true }

/-- An initialized session state holding one buffered chunk at 48000 Hz. -/
def stBuffered : SessionState :=
  { initState with
    session_initialized := true
    audio_data_buffer := [[1, 2]]
    current_sample_rate := 48000
    chunk_count := 1 }

/-! ## Helper lemmas about single dispatch steps -/

/-- An `init` frame only flips `session_initialized` to `true`. -/
theorem processFrame_init (st : SessionState) (i : Frame)
    (h : i.command = some "init") :
    processFrame st i = { st with session_initialized := true } := by
  simp [processFrame, h]

/-- A `voice` frame in an uninitialized session changes nothing. -/
theorem processFrame_voice_notReady (st : SessionState) (f : Frame)
    (h1 : st.session_initialized = false) (h2 : f.command = some "voice") :
    processFrame st f = st := by
  simp [processFrame, h1, h2]

/-- A `voice` frame with decodable non-empty audio, in an initialized
session, bumps the counter, stores the reported rate and appends the decoded
bytes. -/
theorem processFrame_voice_decoded (st : SessionState) (f : Frame) (s : String)
    (b : List Nat) (h1 : st.session_initialized = true)
    (h2 : f.command = some "voice") (h3 : f.audio = some s) (h4 : s ≠ "")
    (h5 : b64decode s = some b) :
    processFrame st f =
      { st with
        chunk_count := st.chunk_count + 1
        current_sample_rate := f.sampleRate.getD 24000
        audio_data_buffer := st.audio_data_buffer ++ [b] } := by
  simp [processFrame, h1, h2, h3, h4, h5]

/-- A `voice` frame whose audio is absent, empty, or invalid base64 still
bumps the counter and stores the reported rate, but appends nothing. -/
theorem processFrame_voice_noBytes (st : SessionState) (f : Frame)
    (h1 : st.session_initialized = true) (h2 : f.command = some "voice")
    (h3 : f.audio.getD "" = "" ∨ b64decode (f.audio.getD "") = none) :
    processFrame st f =
      { st with
        chunk_count := st.chunk_count + 1
        current_sample_rate := f.sampleRate.getD 24000 } := by
  rcases h3 with h3 | h3
  · simp [processFrame, h1, h2, h3]
  · have hne : f.audio.getD "" ≠ "" := by
      intro he
      rw [he] at h3
      simp [b64decode, sextetsToBytes] at h3
    simp [processFrame, h1, h2, h3, hne]

/-- With a missing or mismatched authorization header the token check
returns `False`. -/
theorem validate_false_of_bad (hs : Option Headers)
    (h : ∀ h' : Headers, hs = some h' →
      h'.authorization.getD "" ≠ "Bearer " ++ EXPECTED_SESSION_TOKEN) :
    _validate_session_token hs = false := by
  cases hs with
  | none => rfl
  | some h' =>
    have hne := h h' rfl
    simp [_validate_session_token, hne]

/-! ## Claim theorems -/

/-- C4: a connection whose authorization header is absent or differs from
`Bearer test_session_token_12345` is closed with code 1008 before any command
runs: no artifact is created and the session never becomes initialized,
with absence and mismatch handled identically (the token check is a total
function returning `False` in both cases). -/
theorem C4_reject_invalid_credential (hs : Option Headers) (msgs : List Msg)
    (ec : ExitCause)
    (h : ∀ h' : Headers, hs = some h' →
      h'.authorization.getD "" ≠ "Bearer " ++ EXPECTED_SESSION_TOKEN) :
    (handle_client hs msgs ec).closeCode = some 1008 ∧
    (handle_client hs msgs ec).artifact = none ∧
    (handle_client hs msgs ec).finalState.session_initialized = false := by
  have hv := validate_false_of_bad hs h
  simp [handle_client, hv, initState]

/-- C4 witness: a mismatched bearer token at a concrete connection. -/
theorem C4_reject_invalid_credential_witness :
    (handle_client badHeaders [Msg.frame initFrame] .normalClose).closeCode
      = some 1008 ∧
    (handle_client badHeaders [Msg.frame initFrame] .normalClose).artifact
      = none ∧
    (handle_client badHeaders [Msg.frame initFrame]
      .normalClose).finalState.session_initialized = false :=
  C4_reject_invalid_credential badHeaders [Msg.frame initFrame] .normalClose
    (by
      intro h' hh
      have : h' = { authorization := some "Bearer wrong_token" } := by
        simpa [badHeaders] using hh.symm
      subst this
      decide)

/-- C5 counterexample: a session with a successful `init` and a clean close
produces no artifact at all, so the artifact cannot have been created at the
first successful `init` (had it been, it would have been finalized and exist
at close). -/
theorem C5_counterexample_no_artifact_after_init :
    (handle_client goodHeaders [Msg.frame initFrame]
      .normalClose).finalState.session_initialized = true ∧
    (handle_client goodHeaders [Msg.frame initFrame] .normalClose).artifact
      = none := by decide

/-- C5 amended: no file is created during the session at all; the artifact
comes into existence exactly when the receive loop exits normally with a
non-empty buffer (`save_audio` is called after the loop). -/
theorem C5_amended_artifact_created_at_close (hs : Option Headers)
    (msgs : List Msg) (ec : ExitCause)
    (hauth : _validate_session_token hs = true) :
    ((handle_client hs msgs ec).artifact.isSome ↔
      ec = ExitCause.normalClose ∧ (runMsgs msgs).audio_data_buffer ≠ []) := by
  simp only [handle_client, hauth, Bool.not_true, Bool.false_eq_true,
    if_false]
  cases ec with
  | normalClose =>
    simp only [finalizeSession]
    split <;> simp_all
  | connectionClosed => simp [finalizeSession]
  | error => simp [finalizeSession]

/-- C5 amended witness: with one decodable voice chunk and a clean close the
artifact exists. -/
theorem C5_amended_artifact_created_at_close_witness :
    _validate_session_token goodHeaders = true ∧
    ((handle_client goodHeaders [Msg.frame initFrame, Msg.frame voiceTWFu]
        ExitCause.normalClose).artifact.isSome ↔
      ExitCause.normalClose = ExitCause.normalClose ∧
      (runMsgs [Msg.frame initFrame,
        Msg.frame voiceTWFu]).audio_data_buffer ≠ []) :=
  ⟨by decide,
   C5_amended_artifact_created_at_close goodHeaders
     [Msg.frame initFrame, Msg.frame voiceTWFu] ExitCause.normalClose
     (by decide)⟩

/-- C6 counterexample: two different sessions (different message sequences)
both write the constant filename `received_audio.wav` — the filename carries
no timestamp, so sessions in the same process do collide. -/
theorem C6_counterexample_constant_filename :
    ((handle_client goodHeaders [Msg.frame initFrame, Msg.frame voiceTWFu]
        .normalClose).artifact.map WavFile.filename)
      = some "received_audio.wav" ∧
    ((handle_client goodHeaders [Msg.frame initFrame, Msg.frame voiceTQ]
        .normalClose).artifact.map WavFile.filename)
      = some "received_audio.wav" ∧
    ([Msg.frame initFrame, Msg.frame voiceTWFu] : List Msg)
      ≠ [Msg.frame initFrame, Msg.frame voiceTQ] := by decide

/-- C6 amended: every artifact is written to the fixed module-level path
`received_audio.wav`; there is no timestamp in the name and all sessions of
one process share (and overwrite) the same file. -/
theorem C6_amended_fixed_filename (audio_chunks : List (List Nat))
    (sample_rate : Nat) :
    (save_audio audio_chunks sample_rate).filename = "received_audio.wav" ∧
    OUTPUT_WAV_FILE = "received_audio.wav" := ⟨rfl, rfl⟩

/-- C2 counterexample: audio was received and decoded (the buffer holds its
bytes), yet when the loop exits through `ConnectionClosed` (abrupt
disconnect) no artifact is finalized at all — everything received is lost,
because the audio sits in an in-memory buffer and `save_audio` only runs
after a normal loop end. -/
theorem C2_counterexample_abrupt_close_loses_audio :
    (runMsgs [Msg.frame initFrame, Msg.frame voiceTWFu]).audio_data_buffer
      = [[77, 97, 110]] ∧
    (handle_client goodHeaders [Msg.frame initFrame, Msg.frame voiceTWFu]
      ExitCause.connectionClosed).artifact = none := by decide

/-- C2 amended: received audio is buffered entirely in memory; the artifact
is written at most once, and only when the receive loop ends normally — an
abrupt disconnect or an escaping error skips `save_audio` and loses all
buffered audio. On a normal exit with a non-empty buffer the artifact holds
exactly the concatenation of the buffered chunks. -/
theorem C2_amended_finalize_only_on_clean_close (st : SessionState)
    (h : st.audio_data_buffer ≠ []) :
    finalizeSession st ExitCause.connectionClosed = none ∧
    finalizeSession st ExitCause.error = none ∧
    finalizeSession st ExitCause.normalClose =
      some (save_audio st.audio_data_buffer st.current_sample_rate) ∧
    (save_audio st.audio_data_buffer st.current_sample_rate).frames =
      st.audio_data_buffer.flatten := by
  simp [finalizeSession, h, save_audio]

/-- C2 amended witness: a concrete buffered state. -/
theorem C2_amended_finalize_only_on_clean_close_witness :
    stBuffered.audio_data_buffer ≠ [] ∧
    (finalizeSession stBuffered ExitCause.connectionClosed = none ∧
     finalizeSession stBuffered ExitCause.error = none ∧
     finalizeSession stBuffered ExitCause.normalClose =
       some (save_audio stBuffered.audio_data_buffer
         stBuffered.current_sample_rate) ∧
     (save_audio stBuffered.audio_data_buffer
       stBuffered.current_sample_rate).frames =
       stBuffered.audio_data_buffer.flatten) :=
  ⟨by decide, C2_amended_finalize_only_on_clean_close stBuffered (by decide)⟩

/-- C3 counterexample: the session default rate is 24000 and the first chunk
reports 24000, but a later chunk reporting 48000 changes the header — the
finalized artifact declares 48000, so later `voice` chunks do alter the
declared sample rate. -/
theorem C3_counterexample_rate_follows_later_chunk :
    initState.current_sample_rate = 24000 ∧
    voiceTQ.sampleRate = some 24000 ∧
    voiceTWE.sampleRate = some 48000 ∧
    ((handle_client goodHeaders
        [Msg.frame initFrame, Msg.frame voiceTQ, Msg.frame voiceTWE]
        .normalClose).artifact.map WavFile.framerate) = some 48000 := by
  decide

/-- C3 amended: every `voice` chunk processed while initialized overwrites
the pending sample rate with its own reported `sampleRate` (24000 when
absent), and the artifact written at a clean close carries whatever rate was
stored last — the rate of the last `voice` chunk, not a rate fixed at `init`
or at artifact creation. -/
theorem C3_amended_rate_of_last_chunk (st : SessionState) (f : Frame)
    (wav : WavFile) (h1 : st.session_initialized = true)
    (h2 : f.command = some "voice")
    (hw : finalizeSession st ExitCause.normalClose = some wav) :
    (processFrame st f).current_sample_rate = f.sampleRate.getD 24000 ∧
    wav.framerate = st.current_sample_rate := by
  constructor
  · by_cases hA : f.audio.getD "" = ""
    · rw [processFrame_voice_noBytes st f h1 h2 (Or.inl hA)]
    · cases hB : b64decode (f.audio.getD "") with
      | none => rw [processFrame_voice_noBytes st f h1 h2 (Or.inr hB)]
      | some b =>
        obtain ⟨s, hs⟩ : ∃ s, f.audio = some s := by
          cases hau : f.audio with
          | none => rw [hau] at hA; simp at hA
          | some s => exact ⟨s, rfl⟩
        rw [hs] at hA hB
        rw [processFrame_voice_decoded st f s b h1 h2 hs (by simpa using hA)
          (by simpa using hB)]
  · simp only [finalizeSession] at hw
    split at hw
    · cases hw
      rfl
    · cases hw

/-- C3 amended witness: a buffered state finalized at rate 48000 and a chunk
reporting 48000. -/
theorem C3_amended_rate_of_last_chunk_witness :
    (processFrame stBuffered voiceTWE).current_sample_rate
      = voiceTWE.sampleRate.getD 24000 ∧
    (save_audio stBuffered.audio_data_buffer 48000).framerate
      = stBuffered.current_sample_rate :=
  C3_amended_rate_of_last_chunk stBuffered voiceTWE
    (save_audio stBuffered.audio_data_buffer 48000) (by decide) (by decide)
    (by decide)

/-- A frame is a decodable voice chunk: command `voice` and a non-empty
`audio` field that base64-decodes successfully. -/
def goodVoice (f : Frame) : Prop :=
  f.command = some "voice" ∧ f.audio.getD "" ≠ "" ∧
    (b64decode (f.audio.getD "")).isSome = true

instance (f : Frame) : Decidable (goodVoice f) := by
  unfold goodVoice
  infer_instance

/-- Folding a list of decodable voice chunks over an initialized state
appends their decoded payloads to the buffer, in order, and keeps the
session initialized. -/
theorem foldl_goodVoice (chunks : List Frame) (st : SessionState)
    (hst : st.session_initialized = true)
    (h : ∀ f ∈ chunks, goodVoice f) :
    ((chunks.map Msg.frame).foldl processMsg st).audio_data_buffer
      = st.audio_data_buffer ++ chunks.map decodedAudio ∧
    ((chunks.map Msg.frame).foldl processMsg st).session_initialized
      = true := by
  induction chunks generalizing st with
  | nil => simpa using hst
  | cons f rest ih =>
    obtain ⟨hc, hne, hdec⟩ := h f (List.mem_cons_self f rest)
    obtain ⟨s, hs⟩ : ∃ s, f.audio = some s := by
      cases hau : f.audio with
      | none => rw [hau] at hne; simp at hne
      | some s => exact ⟨s, rfl⟩
    rw [hs] at hne hdec
    obtain ⟨b, hb⟩ := Option.isSome_iff_exists.mp hdec
    have hstep := processFrame_voice_decoded st f s b hst hc hs
      (by simpa using hne) (by simpa using hb)
    have hrest := ih
      { st with
        chunk_count := st.chunk_count + 1
        current_sample_rate := f.sampleRate.getD 24000
        audio_data_buffer := st.audio_data_buffer ++ [b] }
      hst (fun g hg => h g (List.mem_cons_of_mem f hg))
    have hb' : b64decode s = some b := by simpa using hb
    have hdb : decodedAudio f = b := by simp [decodedAudio, hs, hb']
    simp only [List.map_cons, List.foldl_cons, processMsg, hstep]
    refine ⟨?_, hrest.2⟩
    rw [hrest.1]
    simp [hdb]

/-- C1: after authenticating and a successful `init`, any sequence of
`voice` commands with valid non-empty base64 audio (and no
`voice_interrupt`) yields a finalized artifact whose frame data is exactly
the concatenation of the decoded payloads in arrival order, with byte length
the sum of the decoded lengths. -/
theorem C1_artifact_concat_of_payloads (hs : Option Headers) (it : Frame)
    (chunks : List Frame) (hauth : _validate_session_token hs = true)
    (hinit : it.command = some "init") (hch : ∀ f ∈ chunks, goodVoice f)
    (hne : chunks ≠ []) :
    ∃ wav : WavFile,
      (handle_client hs (Msg.frame it :: chunks.map Msg.frame)
        ExitCause.normalClose).artifact = some wav ∧
      wav.frames = (chunks.map decodedAudio).flatten ∧
      wav.frames.length
        = (chunks.map (fun f => (decodedAudio f).length)).sum := by
  have hst0 := processFrame_init initState it hinit
  obtain ⟨hbuf, hinit'⟩ := foldl_goodVoice chunks
    { initState with session_initialized := true } rfl hch
  have hbuf' : ((Msg.frame it :: chunks.map Msg.frame).foldl processMsg
      initState).audio_data_buffer = chunks.map decodedAudio := by
    simp only [List.foldl_cons, processMsg, hst0]
    simpa [initState] using hbuf
  have hmapne : chunks.map decodedAudio ≠ [] := by simpa using hne
  simp only [handle_client, hauth, Bool.not_true, Bool.false_eq_true,
    if_false, runMsgs, finalizeSession, hbuf', hmapne, ne_eq,
    not_false_eq_true, if_true]
  refine ⟨_, rfl, rfl, ?_⟩
  simp [save_audio, hbuf', List.length_flatten, List.map_map,
    Function.comp_def]

/-- C1 witness: one decoded chunk `"TWFu"` gives a 3-byte artifact. -/
theorem C1_artifact_concat_of_payloads_witness :
    _validate_session_token goodHeaders = true ∧
    ([voiceTWFu] : List Frame) ≠ [] ∧
    ∃ wav : WavFile,
      (handle_client goodHeaders
        (Msg.frame initFrame :: [voiceTWFu].map Msg.frame)
        ExitCause.normalClose).artifact = some wav ∧
      wav.frames = ([voiceTWFu].map decodedAudio).flatten ∧
      wav.frames.length
        = ([voiceTWFu].map (fun f => (decodedAudio f).length)).sum :=
  ⟨by decide, by decide,
   C1_artifact_concat_of_payloads goodHeaders initFrame [voiceTWFu]
     (by decide) (by decide) (by decide) (by decide)⟩

/-- C7: a `voice` frame arriving while the session is uninitialized changes
nothing at all (no bytes, no counters, no state change — the loop just
continues), and a subsequent valid `init` followed by a decodable `voice`
succeeds normally, appending the decoded bytes. -/
theorem C7_voice_before_init_dropped (st : SessionState) (f i v : Frame)
    (s : String) (b : List Nat) (h1 : st.session_initialized = false)
    (h2 : f.command = some "voice") (h3 : i.command = some "init")
    (h4 : v.command = some "voice") (h5 : v.audio = some s) (h6 : s ≠ "")
    (h7 : b64decode s = some b) :
    processFrame st f = st ∧
    (processFrame (processFrame (processFrame st f) i) v).audio_data_buffer
      = st.audio_data_buffer ++ [b] ∧
    (processFrame (processFrame (processFrame st f) i)
      v).session_initialized = true := by
  have hdrop := processFrame_voice_notReady st f h1 h2
  rw [hdrop, processFrame_init st i h3,
    processFrame_voice_decoded _ v s b rfl h4 h5 h6 h7]
  exact ⟨rfl, rfl, rfl⟩

/-- C7 witness: `voice` on the fresh state, then `init`, then a decodable
`voice`. -/
theorem C7_voice_before_init_dropped_witness :
    processFrame initState voiceTWFu = initState ∧
    (processFrame (processFrame (processFrame initState voiceTWFu) initFrame)
      voiceTWFu).audio_data_buffer
      = initState.audio_data_buffer ++ [[77, 97, 110]] ∧
    (processFrame (processFrame (processFrame initState voiceTWFu) initFrame)
      voiceTWFu).session_initialized = true :=
  C7_voice_before_init_dropped initState voiceTWFu initFrame voiceTWFu
    "TWFu" [77, 97, 110] (by decide) (by decide) (by decide) (by decide)
    (by decide) (by decide) (by decide)

/-- C8: a frame with no `command` field but with an `avatar_id`, received
while uninitialized, acts exactly like `init`: the only state change is
`session_initialized := true`. -/
theorem C8_legacy_frame_inits (st : SessionState) (f : Frame)
    (h1 : st.session_initialized = false) (h2 : f.command = none)
    (h3 : f.avatar_id.isSome = true) :
    processFrame st f = { st with session_initialized := true } := by
  simp [processFrame, h2, pyTruthy, h3]

/-- C8 witness: the legacy frame on the fresh state. -/
theorem C8_legacy_frame_inits_witness :
    processFrame initState legacyFrame
      = { initState with session_initialized := true } :=
  C8_legacy_frame_inits initState legacyFrame (by decide) (by decide)
    (by decide)

/-- C9: a `heartbeat` carrying `event_id` and `timestamp` sends back exactly
one acknowledgment echoing both verbatim, and every other component of the
session state (initialization flag, chunk counter, buffer, sample rate) is
unchanged. -/
theorem C9_heartbeat_ack_echo (st : SessionState) (f : Frame) (e : String)
    (t : Int) (h1 : f.command = some "heartbeat") (h2 : f.event_id = some e)
    (h3 : f.timestamp = some t) :
    (processFrame st f).sent = st.sent ++
      [{ command := "heartbeat_ack", event_id := e, timestamp := t }] ∧
    (processFrame st f).session_initialized = st.session_initialized ∧
    (processFrame st f).chunk_count = st.chunk_count ∧
    (processFrame st f).audio_data_buffer = st.audio_data_buffer ∧
    (processFrame st f).current_sample_rate = st.current_sample_rate := by
  have hstep : processFrame st f = { st with sent := st.sent ++
      [{ command := "heartbeat_ack", event_id := e, timestamp := t }] } := by
    simp [processFrame, h1, h2, h3]
  rw [hstep]
  exact ⟨rfl, rfl, rfl, rfl, rfl⟩

/-- C9 witness: heartbeat `("h1", 42)` on an initialized state. -/
theorem C9_heartbeat_ack_echo_witness :
    (processFrame stReady heartbeatFrame).sent = stReady.sent ++
      [{ command := "heartbeat_ack", event_id := "h1", timestamp := 42 }] ∧
    (processFrame stReady heartbeatFrame).session_initialized
      = stReady.session_initialized ∧
    (processFrame stReady heartbeatFrame).chunk_count
      = stReady.chunk_count ∧
    (processFrame stReady heartbeatFrame).audio_data_buffer
      = stReady.audio_data_buffer ∧
    (processFrame stReady heartbeatFrame).current_sample_rate
      = stReady.current_sample_rate :=
  C9_heartbeat_ack_echo stReady heartbeatFrame "h1" 42 (by decide)
    (by decide) (by decide)

/-- One dispatch step preserves `buffer length ≤ chunk counter`. -/
theorem processMsg_buffer_le (st : SessionState) (m : Msg)
    (h : st.audio_data_buffer.length ≤ st.chunk_count) :
    (processMsg st m).audio_data_buffer.length
      ≤ (processMsg st m).chunk_count := by
  cases m with
  | malformed => exact h
  | frame f =>
    simp only [processMsg, processFrame]
    repeat' split
    all_goals simp_all
    all_goals omega

/-- The receive loop preserves `buffer length ≤ chunk counter`. -/
theorem foldl_buffer_le (msgs : List Msg) (st : SessionState)
    (h : st.audio_data_buffer.length ≤ st.chunk_count) :
    (msgs.foldl processMsg st).audio_data_buffer.length
      ≤ (msgs.foldl processMsg st).chunk_count := by
  induction msgs generalizing st with
  | nil => exact h
  | cons m rest ih => exact ih (processMsg st m) (processMsg_buffer_le st m h)

/-- C10: in an initialized session a `voice` frame whose audio is absent,
empty, or invalid base64 still increments the chunk counter (the counter is
bumped before the payload is inspected) while appending nothing, and over
every message sequence the counter stays ≥ the number of buffered chunks. -/
theorem C10_counter_ge_buffered (st : SessionState) (f : Frame)
    (msgs : List Msg) (h1 : st.session_initialized = true)
    (h2 : f.command = some "voice")
    (h3 : f.audio.getD "" = "" ∨ b64decode (f.audio.getD "") = none) :
    ((processFrame st f).chunk_count = st.chunk_count + 1 ∧
     (processFrame st f).audio_data_buffer = st.audio_data_buffer) ∧
    (runMsgs msgs).audio_data_buffer.length ≤ (runMsgs msgs).chunk_count := by
  constructor
  · rw [processFrame_voice_noBytes st f h1 h2 h3]
    exact ⟨rfl, rfl⟩
  · exact foldl_buffer_le msgs initState (by simp [initState])

/-- C10 witness: the invalid-base64 voice frame `"abc"` on an initialized
state, and a concrete message sequence containing it. -/
theorem C10_counter_ge_buffered_witness :
    ((processFrame stReady voiceBad).chunk_count = stReady.chunk_count + 1 ∧
     (processFrame stReady voiceBad).audio_data_buffer
       = stReady.audio_data_buffer) ∧
    (runMsgs [Msg.frame initFrame, Msg.frame voiceBad,
      Msg.frame voiceTWFu]).audio_data_buffer.length
      ≤ (runMsgs [Msg.frame initFrame, Msg.frame voiceBad,
        Msg.frame voiceTWFu]).chunk_count :=
  C10_counter_ge_buffered stReady voiceBad
    [Msg.frame initFrame, Msg.frame voiceBad, Msg.frame voiceTWFu]
    (by decide) (by decide) (by decide)

end WSReceiver
